import Mathlib

/-!
Verification of the cinject dependency-injection engine
(`src/include/cinject/cinject.h`) against its natural-language
specification.

The C++ header is shallowly embedded as executable Lean definitions:

* `component_type` mirrors `cinject::component_type` (a type tag plus an
  optional custom name); equality (`ctEq`, mirroring `operator==`) compares
  only the type tag, exactly as the C++ `operator==` compares only `typeInfo`.
* `RState` carries the mutable state that the C++ code keeps in the
  `InjectionContext` (the component stack) and in the `InstanceStorage`
  objects (the singleton caches, keyed here by storage id) together with a
  fresh-instance counter used to model `std::make_shared` allocation.
* `InstanceStorage`, `Factory`, `Container` mirror the corresponding C++
  classes.  A `Factory` resolves a list of dependency identities through the
  container exactly as `ConstructorFactory` / `FunctionFactory` call
  `container.get<Dep>(context)` for each constructor argument; the
  `funcRequester` constructor models a user function factory that calls
  `context->getRequester()` (as the repository test suite does); `const`
  models `ConstantFactory`.
* The resolution functions are written against an abstract recursive
  resolver `Recur` (`resolveDepsWith`, `invokeFactoryWith`,
  `createInstanceWith`, `storageGetInstanceWith`, `forwardInstanceWith`) and
  tied together by the fueled `containerGet`, mirroring the recursion
  `Container::get -> InstanceRetriever::forwardInstance ->
  InstanceStorage::getInstance -> InstanceStorage::createInstance ->
  factory -> Container::get`.  C++ recursion has no fuel; fuel only cuts
  infinite unfolding and every claim is settled at a fuel large enough for
  the construction graph at hand.
* Exceptions are modelled by threading an `Except DIError` result together
  with the state: C++ stack unwinding runs the `ContextGuard` destructor, so
  an error path still pops the pushed identity, which is exactly what
  `createInstanceWith` does on its error results.
-/

namespace Cinject

/-- The opaque type tag of `std::type_info`, with a dedicated marker for
`cinject_unspecified_component`. -/
inductive TypeTag where
  | unspecified
  | user (n : Nat)
deriving DecidableEq, Repr

/-- Mirrors `type_name<T>::value()`: every type has a built-in diagnostic
name (`typeid(T).name()` or the `CINJECT_NAME` override). -/
def typeName : TypeTag → String
  | TypeTag.unspecified => "cinject_unspecified_component"
  | TypeTag.user n => "user" ++ toString n

/-- Mirrors `cinject::component_type`: a type tag plus an optional custom
name (empty string means none, as in the C++ default argument). -/
structure component_type where
  typeInfo : TypeTag
  customName : String
deriving DecidableEq, Repr

/-- Mirrors `component_type::name()`. -/
def component_type.name (c : component_type) : String :=
  if c.customName = "" then typeName c.typeInfo else c.customName

/-- Mirrors `component_type::specified()`:
`typeInfo != typeid(cinject_unspecified_component)`. -/
def component_type.specified (c : component_type) : Bool :=
  c.typeInfo ≠ TypeTag.unspecified

/-- Mirrors `operator==(const component_type&, const component_type&)`,
which compares only `typeInfo` and ignores the custom name. -/
def ctEq (a b : component_type) : Bool :=
  a.typeInfo = b.typeInfo

/-- An instance produced by a factory.  `id` is the allocation number
(fresh per `std::make_shared` call in the model) and `note` records what a
requester-aware function factory observed while building the instance. -/
structure Inst where
  id : Nat
  note : String
deriving DecidableEq, Repr

/-- The error taxonomy of the header (`CircularDependencyFoundException`,
`ComponentNotFoundException`, `InvalidOperationException`), plus two
model-only constructors: `outOfFuel` (the model ran out of recursion fuel,
no C++ counterpart) and `badStorage` (a retriever referencing a missing
storage, impossible for containers built through `bindTo`). -/
inductive DIError where
  | circularDependencyFound (t : component_type)
  | componentNotFound (t : component_type)
  | invalidOperation (msg : String)
  | outOfFuel
  | badStorage
deriving DecidableEq, Repr

/-- The mutable state threaded through a resolution: the
`InjectionContext` component stack (head of the list is the most recently
pushed entry, i.e. `componentStack_.back()`), the fresh-allocation counter,
and the singleton caches of all `InstanceStorage` objects (keyed by storage
id, modelling the `instance_` member each storage holds). -/
structure RState where
  stack : List component_type
  nextId : Nat
  cache : List (Nat × Inst)
deriving DecidableEq, Repr

/-- Cache lookup for a storage id (reads the `instance_` member of the
storage with that id). -/
def lookupCache : List (Nat × Inst) → Nat → Option Inst
  | [], _ => none
  | (k, v) :: rest, sid => if k = sid then some v else lookupCache rest sid

/-- Mirrors `InjectionContext::getRequester()`: the entry one below the top
of the component stack (`componentStack_[size - 2]`), or
`InvalidOperationException("Context not valid.")` when the stack has fewer
than two entries. -/
def getRequester : List component_type → Except DIError component_type
  | _ :: second :: _ => Except.ok second
  | _ => Except.error (DIError.invalidOperation "Context not valid.")

/-- Mirrors `ContextGuard::ensureNoCycle()` applied to the stack right
after a push: scan every entry except the last-pushed one (the head here)
for an entry equal (by `operator==`, i.e. `ctEq`) to the last-pushed one. -/
def stackHasCycle : List component_type → Bool
  | [] => false
  | top :: rest => rest.any fun u => ctEq u top

/-- The factory strategies of the header.  `ctorAuto deps` models
`ConstructorFactory` (the constructor arguments it resolves through
`container.get`), `func deps` models a `FunctionFactory` whose function
body resolves `deps` through the container, `funcRequester` models a
`FunctionFactory` that calls `context->getRequester()` and bakes the
requester name into the produced instance, and `const` models
`ConstantFactory`. -/
inductive Factory where
  | ctorAuto (deps : List TypeTag)
  | func (deps : List TypeTag)
  | funcRequester
  | const (inst : Inst)
deriving DecidableEq, Repr

/-- Mirrors `InstanceStorage<TImplementation, TFactory>`: the
implementation type, the factory, the `isSingleton_` flag set by
`setSingleton`, and the `name_` set by `setName` (empty = unset). -/
structure InstanceStorage where
  implType : TypeTag
  factory : Factory
  isSingleton : Bool
  name : String
deriving DecidableEq, Repr

/-- The identity pushed by `InstanceStorage::createInstance`:
`make_component_type<TImplementation>(!name_.empty() ? name_ :
type_name<TImplementation>::value())`. -/
def storageIdentity (s : InstanceStorage) : component_type :=
  ⟨s.implType, if s.name ≠ "" then s.name else typeName s.implType⟩

/-- All `InstanceStorage` objects ever created by `to` / `toFunction` /
`toConstant` calls, addressed by storage id (their index). -/
structure World where
  storages : List InstanceStorage
deriving Repr

/-- Mirrors `Container`: the `registrations_` map (association list from
component identity key to the ordered retriever list; retrievers are
modelled by the id of the storage they forward to) and the optional
`parentContainer_`. -/
inductive Container where
  | root (registrations : List (TypeTag × List Nat))
  | child (registrations : List (TypeTag × List Nat)) (parent : Container)

/-- `registrations_.find(type)`: the retriever list bound to a key, or the
empty list when the key is absent. -/
def lookupRegs : List (TypeTag × List Nat) → TypeTag → List Nat
  | [], _ => []
  | (k, sids) :: rest, t => if k = t then sids else lookupRegs rest t

/-- Mirrors `Container::findInstanceRetrievers`: the local registrations
for the key, followed by the recursive result from the parent chain. -/
def Container.findInstanceRetrievers : Container → TypeTag → List Nat
  | Container.root regs, t => lookupRegs regs t
  | Container.child regs p, t => lookupRegs regs t ++ p.findInstanceRetrievers t

/-- Mirrors `ComponentBuilderBase::addRegistration`:
`registrations_[make_component_type<TComponent>()].emplace_back(...)` —
append the new retriever to the list under the key, creating the entry when
absent. -/
def addToRegs : List (TypeTag × List Nat) → TypeTag → Nat → List (TypeTag × List Nat)
  | [], t, sid => [(t, [sid])]
  | (k, sids) :: rest, t, sid =>
    if k = t then (k, sids ++ [sid]) :: rest
    else (k, sids) :: addToRegs rest t sid

/-- Adds one registration to the local registry of a container. -/
def addRegistration : Container → TypeTag → Nat → Container
  | Container.root regs, t, sid => Container.root (addToRegs regs t sid)
  | Container.child regs p, t, sid => Container.child (addToRegs regs t sid) p

/-- Mirrors one `bind<Idents...>().to/toFunction/toConstant<Impl>()` call
(with the subsequent `inSingletonScope` / `alias` configuration folded in):
create exactly one `InstanceStorage` and register one retriever sharing it
for every listed identity, in the listed order
(`ComponentBuilderBase::registerType`). -/
def bindTo (w : World) (c : Container) (idents : List TypeTag) (implType : TypeTag)
    (factory : Factory) (isSingleton : Bool) (name : String) : World × Container :=
  let sid := w.storages.length
  let stor : InstanceStorage := ⟨implType, factory, isSingleton, name⟩
  (⟨w.storages ++ [stor]⟩, idents.foldl (fun acc i => addRegistration acc i sid) c)

/-- The shape of the recursive resolver handed to the stages below: a
single-instance `container.get` at some remaining fuel. -/
abbrev Recur := TypeTag → RState → Except DIError Inst × RState

/-- Allocates a fresh instance (a `std::make_shared` call in a
constructor/function factory). -/
def allocInst (st : RState) (note : String) : Except DIError Inst × RState :=
  (Except.ok ⟨st.nextId, note⟩, { st with nextId := st.nextId + 1 })

/-- Resolves the dependency list of a factory, one `container.get` per
entry in order, propagating the first error. -/
def resolveDepsWith (recur : Recur) : List TypeTag → RState → Except DIError (List Inst) × RState
  | [], st => (Except.ok [], st)
  | d :: rest, st =>
    match recur d st with
    | (Except.ok i, st1) =>
      match resolveDepsWith recur rest st1 with
      | (Except.ok is, st2) => (Except.ok (i :: is), st2)
      | (Except.error e, st2) => (Except.error e, st2)
    | (Except.error e, st1) => (Except.error e, st1)

/-- Mirrors `factory_.createInstance(context)` for each factory
strategy. -/
def invokeFactoryWith (recur : Recur) (f : Factory) (st : RState) : Except DIError Inst × RState :=
  match f with
  | Factory.ctorAuto deps =>
    match resolveDepsWith recur deps st with
    | (Except.ok _, st1) => allocInst st1 ""
    | (Except.error e, st1) => (Except.error e, st1)
  | Factory.func deps =>
    match resolveDepsWith recur deps st with
    | (Except.ok _, st1) => allocInst st1 ""
    | (Except.error e, st1) => (Except.error e, st1)
  | Factory.funcRequester =>
    match getRequester st.stack with
    | Except.ok req => allocInst st req.name
    | Except.error e => (Except.error e, st)
  | Factory.const inst => (Except.ok inst, st)

/-- The `ContextGuard` constructor: push the storage identity. -/
def pushGuard (stor : InstanceStorage) (st : RState) : RState :=
  { st with stack := storageIdentity stor :: st.stack }

/-- The `ContextGuard` destructor: pop the top entry.  Applied to the
result of the guarded region on every exit path, normal or error, exactly
as C++ stack unwinding runs the destructor. -/
def popGuard (out : Except DIError Inst × RState) : Except DIError Inst × RState :=
  (out.1, { out.2 with stack := out.2.stack.tail })

/-- Mirrors `InstanceStorage::createInstance`: construct the guard (push),
run `ensureNoCycle`, then invoke the factory; the guard pops on every exit
path. -/
def createInstanceWith (recur : Recur) (stor : InstanceStorage) (st : RState) :
    Except DIError Inst × RState :=
  let pushed := pushGuard stor st
  popGuard
    (if stackHasCycle pushed.stack then
      (Except.error (DIError.circularDependencyFound (storageIdentity stor)), pushed)
    else
      invokeFactoryWith recur stor.factory pushed)

/-- Mirrors `InstanceStorage::getInstance`: transient storages always
create; singleton storages create once, cache in `instance_`, and return
the cached instance thereafter. -/
def storageGetInstanceWith (recur : Recur) (sid : Nat) (stor : InstanceStorage) (st : RState) :
    Except DIError Inst × RState :=
  if stor.isSingleton = false then createInstanceWith recur stor st
  else
    match lookupCache st.cache sid with
    | some inst => (Except.ok inst, st)
    | none =>
      match createInstanceWith recur stor st with
      | (Except.ok inst, st1) => (Except.ok inst, { st1 with cache := (sid, inst) :: st1.cache })
      | (Except.error e, st1) => (Except.error e, st1)

/-- Mirrors `CastInstanceRetriever::forwardInstance`: look the storage up
and ask it for an instance (the `dynamic_pointer_cast` always succeeds for
registrations accepted by the bind-time `static_assert`, so it is the
identity here). -/
def forwardInstanceWith (recur : Recur) (w : World) (sid : Nat) (st : RState) :
    Except DIError Inst × RState :=
  match w.storages.get? sid with
  | none => (Except.error DIError.badStorage, st)
  | some stor => storageGetInstanceWith recur sid stor st

/-- Mirrors the single-instance `Container::get<TInterface>` body run with
an existing context: find the retrievers (local before parent), fail with
`ComponentNotFoundException` when there are none, otherwise forward through
the first one.  Fuel bounds the recursion depth of the model only. -/
def containerGet (w : World) (c : Container) : Nat → TypeTag → RState → Except DIError Inst × RState
  | 0, _, st => (Except.error DIError.outOfFuel, st)
  | fuel + 1, t, st =>
    match c.findInstanceRetrievers t with
    | [] => (Except.error (DIError.componentNotFound ⟨t, ""⟩), st)
    | sid :: _ => forwardInstanceWith (fun u su => containerGet w c fuel u su) w sid st

/-- Forwards through every retriever in order, collecting the produced
instances (the loop body of the vector `Container::get`). -/
def forwardAll (recur : Recur) (w : World) : List Nat → RState → Except DIError (List Inst) × RState
  | [], st => (Except.ok [], st)
  | sid :: rest, st =>
    match forwardInstanceWith recur w sid st with
    | (Except.ok i, st1) =>
      match forwardAll recur w rest st1 with
      | (Except.ok is, st2) => (Except.ok (i :: is), st2)
      | (Except.error e, st2) => (Except.error e, st2)
    | (Except.error e, st1) => (Except.error e, st1)

/-- Mirrors the vector `Container::get<std::vector<IFoo>>` body run with an
existing context: collect all retrievers (local before parent) and forward
through each one in order. -/
def containerGetVector (w : World) (c : Container) (fuel : Nat) (t : TypeTag) (st : RState) :
    Except DIError (List Inst) × RState :=
  forwardAll (fun u su => containerGet w c fuel u su) w (c.findInstanceRetrievers t) st

/-- The sentinel identity the single-instance `Container::get` seeds a
lazily created context with:
`make_component_type<cinject_unspecified_component>("Unspecified")`. -/
def unspecifiedIdentity : component_type := ⟨TypeTag.unspecified, "Unspecified"⟩

/-- Mirrors a top-level single-instance `container.get<T>()` call with no
caller-supplied context: a fresh `InjectionContext` is created whose stack
holds only the `Unspecified` sentinel, the resolution runs, and the context
is destroyed.  The persistent world state (allocation counter and singleton
caches) is threaded in and out. -/
def containerGetTop (w : World) (c : Container) (fuel : Nat) (t : TypeTag)
    (nextId : Nat) (cache : List (Nat × Inst)) :
    Except DIError Inst × Nat × List (Nat × Inst) :=
  let out := containerGet w c fuel t ⟨[unspecifiedIdentity], nextId, cache⟩
  (out.1, out.2.nextId, out.2.cache)

/-- Mirrors a top-level `container.get<std::vector<IFoo>>()` call with no
caller-supplied context: the lazily created context is seeded with
`make_component_type<InterfaceType>()` (the requested interface identity
itself, no custom name). -/
def containerGetVectorTop (w : World) (c : Container) (fuel : Nat) (t : TypeTag)
    (nextId : Nat) (cache : List (Nat × Inst)) :
    Except DIError (List Inst) × Nat × List (Nat × Inst) :=
  let out := containerGetVector w c fuel t ⟨[⟨t, ""⟩], nextId, cache⟩
  (out.1, out.2.nextId, out.2.cache)

/-! ### Automatic constructor selection (compile-time part)

`ConstructorFactory` has three specializations.  For a type with no
`CINJECT` declaration the dispatch is on `std::is_constructible<T>`:
default-constructible types get the trivial zero-argument factory, all
other types get the arity-probing factory whose `try_instantiate` chain
passes ten proxy arguments (nine `ctor_arg_resolver` and, always last, one
`ctor_arg_resolver_1st<TInstance>`) and drops the first argument until
`std::is_constructible` holds.  A constructor signature is modelled as the
list of its parameter kinds; a whole type by the list of its constructor
signatures. -/

/-- A constructor parameter: a non-pointer type, or a raw pointer. -/
inductive ParamKind where
  | byValue (t : TypeTag)
  | rawPointer (t : TypeTag)
deriving DecidableEq, Repr

/-- Mirrors the conversion operator of `ctor_arg_resolver`: SFINAE-enabled
exactly for non-pointer target types. -/
def plainResolverConverts : ParamKind → Bool
  | ParamKind.byValue _ => true
  | ParamKind.rawPointer _ => false

/-- Mirrors the conversion operator of `ctor_arg_resolver_1st<TInstance>`:
enabled for non-pointer targets other than `TInstance` itself. -/
def firstResolverConverts (impl : TypeTag) : ParamKind → Bool
  | ParamKind.byValue t => t ≠ impl
  | ParamKind.rawPointer _ => false

/-- Whether one constructor signature accepts the proxy argument pack of
its arity: every parameter except the last is matched against a plain
`ctor_arg_resolver` and the last against `ctor_arg_resolver_1st` (the
probing call site always places the `1st` resolver last). -/
def sigAcceptsProxies (impl : TypeTag) : List ParamKind → Bool
  | [] => false
  | [p] => firstResolverConverts impl p
  | p :: rest => plainResolverConverts p && sigAcceptsProxies impl rest

/-- Mirrors `std::is_constructible<TInstance, proxies...>` with `k` proxy
arguments: some constructor of that arity accepts the proxies. -/
def constructibleAt (impl : TypeTag) (ctors : List (List ParamKind)) (k : Nat) : Bool :=
  ctors.any fun sig => sig.length = k && sigAcceptsProxies impl sig

/-- Mirrors the `try_instantiate` overload chain: try the current arity,
and when `is_constructible` fails drop the first proxy argument and retry
with one fewer.  Returns the arity actually constructed at, `none`
modelling the `static_assert` failure when no arity down to one works. -/
def tryInstantiateArity (impl : TypeTag) (ctors : List (List ParamKind)) : Nat → Option Nat
  | 0 => none
  | k + 1 =>
    if constructibleAt impl ctors (k + 1) then some (k + 1)
    else tryInstantiateArity impl ctors k

/-- Mirrors `std::is_constructible<TInstance>`: the type has a
zero-parameter constructor. -/
def hasDefaultCtor (ctors : List (List ParamKind)) : Bool :=
  ctors.any fun sig => sig.isEmpty

/-- The constructor arity the `ConstructorFactory` dispatch actually
constructs at for a type with no `CINJECT` declaration: the trivial
specialization (`std::is_constructible<TInstance>::value`) builds with zero
arguments, otherwise the arity-probing specialization starts its
`try_instantiate` chain at ten proxy arguments. -/
def constructorFactoryArity (impl : TypeTag) (ctors : List (List ParamKind)) : Option Nat :=
  if hasDefaultCtor ctors then some 0
  else tryInstantiateArity impl ctors 10

/-! ### Concrete worlds used by the claim theorems -/

/-- Component type tags for the concrete scenarios. -/
def tA : TypeTag := TypeTag.user 1
def tB : TypeTag := TypeTag.user 2
def tC : TypeTag := TypeTag.user 3
def tI : TypeTag := TypeTag.user 4
def tJ : TypeTag := TypeTag.user 5
def tImpl : TypeTag := TypeTag.user 6
def tI1 : TypeTag := TypeTag.user 11
def tI2 : TypeTag := TypeTag.user 12
def tI3 : TypeTag := TypeTag.user 13

def emptyW : World := ⟨[]⟩
def emptyC : Container := Container.root []

/-- A three-cycle built with mixed factory strategies:
`A` requires `B` through an automatic constructor, `B` requires `C` through
a function factory, `C` requires `A` through an automatic constructor. -/
def cycleWC : World × Container :=
  let wc1 := bindTo emptyW emptyC [tA] tA (Factory.ctorAuto [tB]) false ""
  let wc2 := bindTo wc1.1 wc1.2 [tB] tB (Factory.func [tC]) false ""
  bindTo wc2.1 wc2.2 [tC] tC (Factory.ctorAuto [tA]) false ""

/-- A parent container binding `tI` (to a constant instance marked "P") and
`tJ` (marked "PJ"). -/
def parentWC : World × Container :=
  let wc1 := bindTo emptyW emptyC [tI] (TypeTag.user 21) (Factory.const ⟨1, "P"⟩) false ""
  bindTo wc1.1 wc1.2 [tJ] (TypeTag.user 22) (Factory.const ⟨2, "PJ"⟩) false ""

/-- A child of `parentWC` that re-binds `tI` to its own constant instance
(marked "C") and leaves `tJ` to the parent. -/
def childWC : World × Container :=
  bindTo parentWC.1 (Container.child [] parentWC.2) [tI] (TypeTag.user 23)
    (Factory.const ⟨3, "C"⟩) false ""

/-- A transient (non-singleton) automatic-constructor binding of `tI`. -/
def transientWC : World × Container :=
  bindTo emptyW emptyC [tI] tImpl (Factory.ctorAuto []) false ""

/-- A singleton automatic-constructor binding of `tI`. -/
def singletonWC : World × Container :=
  bindTo emptyW emptyC [tI] tImpl (Factory.ctorAuto []) true ""

/-- A `toConstant` binding of `tI`: the storage is not singleton-scoped
(the constant-factory `StorageConfiguration` specialization offers no
`inSingletonScope`), yet every resolution returns the stored instance. -/
def constWC : World × Container :=
  bindTo emptyW emptyC [tI] tImpl (Factory.const ⟨100, "K"⟩) false ""

/-- `tA` bound with an automatic constructor requiring `tB`, while `tB`
itself is bound nowhere. -/
def missingDepWC : World × Container :=
  bindTo emptyW emptyC [tA] tA (Factory.ctorAuto [tB]) false ""

/-- A parent container with two bindings for `tI`, in bind order "P1" then
"P2". -/
def collParentWC : World × Container :=
  let wc1 := bindTo emptyW emptyC [tI] (TypeTag.user 31) (Factory.const ⟨10, "P1"⟩) false ""
  bindTo wc1.1 wc1.2 [tI] (TypeTag.user 32) (Factory.const ⟨20, "P2"⟩) false ""

/-- A child of `collParentWC` adding its own binding "C1" for `tI`. -/
def collChildWC : World × Container :=
  bindTo collParentWC.1 (Container.child [] collParentWC.2) [tI] (TypeTag.user 33)
    (Factory.const ⟨30, "C1"⟩) false ""

/-- One `bind<I1, I2, I3>().to<Impl>().inSingletonScope()` call: three
identities sharing one storage. -/
def multiWC : World × Container :=
  bindTo emptyW emptyC [tI1, tI2, tI3] tImpl (Factory.ctorAuto []) true ""

/-- `tI` bound to a function factory that reads `getRequester()`. -/
def reqWC : World × Container :=
  bindTo emptyW emptyC [tI] tImpl Factory.funcRequester false ""

/-- A constructor set with both a zero-parameter constructor and a
one-parameter constructor taking a non-pointer `tA`. -/
def ctorsBoth : List (List ParamKind) := [[], [ParamKind.byValue tA]]

/-! ### Stack-preservation helper lemmas

Every resolution stage leaves the component stack exactly as it found it,
mirroring the scope-guarded push/pop discipline of `ContextGuard` and the
fact that C++ stack unwinding runs the guard destructor on error paths. -/

theorem resolveDepsWith_stack (recur : Recur)
    (h : ∀ t st, ((recur t st).2).stack = st.stack) :
    ∀ (deps : List TypeTag) (st : RState),
      ((resolveDepsWith recur deps st).2).stack = st.stack := by
  intro deps
  induction deps with
  | nil => intro st; rfl
  | cons d rest ih =>
    intro st
    simp only [resolveDepsWith]
    split
    next i st1 heq =>
      have hd := h d st
      rw [heq] at hd
      split
      next is st2 heq2 =>
        have hr := ih st1
        rw [heq2] at hr
        exact hr.trans hd
      next e st2 heq2 =>
        have hr := ih st1
        rw [heq2] at hr
        exact hr.trans hd
    next e st1 heq =>
      have hd := h d st
      rw [heq] at hd
      exact hd

theorem invokeFactoryWith_stack (recur : Recur)
    (h : ∀ t st, ((recur t st).2).stack = st.stack) (f : Factory) (st : RState) :
    ((invokeFactoryWith recur f st).2).stack = st.stack := by
  cases f with
  | ctorAuto deps =>
    simp only [invokeFactoryWith]
    split
    next is st1 heq =>
      have hds := resolveDepsWith_stack recur h deps st
      rw [heq] at hds
      exact hds
    next e st1 heq =>
      have hds := resolveDepsWith_stack recur h deps st
      rw [heq] at hds
      exact hds
  | func deps =>
    simp only [invokeFactoryWith]
    split
    next is st1 heq =>
      have hds := resolveDepsWith_stack recur h deps st
      rw [heq] at hds
      exact hds
    next e st1 heq =>
      have hds := resolveDepsWith_stack recur h deps st
      rw [heq] at hds
      exact hds
  | funcRequester =>
    simp only [invokeFactoryWith]
    split
    next req heq => rfl
    next e heq => rfl
  | const inst => rfl

theorem createInstanceWith_stack (recur : Recur)
    (h : ∀ t st, ((recur t st).2).stack = st.stack) (stor : InstanceStorage) (st : RState) :
    ((createInstanceWith recur stor st).2).stack = st.stack := by
  simp only [createInstanceWith, popGuard, pushGuard]
  split
  · rfl
  · rw [invokeFactoryWith_stack recur h]
    rfl

theorem storageGetInstanceWith_stack (recur : Recur)
    (h : ∀ t st, ((recur t st).2).stack = st.stack) (sid : Nat) (stor : InstanceStorage)
    (st : RState) : ((storageGetInstanceWith recur sid stor st).2).stack = st.stack := by
  simp only [storageGetInstanceWith]
  split
  · exact createInstanceWith_stack recur h stor st
  · split
    · rfl
    · split
      next i st1 heq =>
        have hc := createInstanceWith_stack recur h stor st
        rw [heq] at hc
        exact hc
      next e st1 heq =>
        have hc := createInstanceWith_stack recur h stor st
        rw [heq] at hc
        exact hc

theorem forwardInstanceWith_stack (recur : Recur)
    (h : ∀ t st, ((recur t st).2).stack = st.stack) (w : World) (sid : Nat) (st : RState) :
    ((forwardInstanceWith recur w sid st).2).stack = st.stack := by
  simp only [forwardInstanceWith]
  split
  · rfl
  · exact storageGetInstanceWith_stack recur h sid _ st

theorem containerGet_stack (w : World) (c : Container) :
    ∀ (fuel : Nat) (t : TypeTag) (st : RState),
      ((containerGet w c fuel t st).2).stack = st.stack := by
  intro fuel
  induction fuel with
  | zero => intro t st; rfl
  | succ fuel ih =>
    intro t st
    simp only [containerGet]
    split
    · rfl
    · exact forwardInstanceWith_stack _ (fun u su => ih u su) w _ st

theorem forwardAll_stack (recur : Recur)
    (h : ∀ t st, ((recur t st).2).stack = st.stack) (w : World) :
    ∀ (sids : List Nat) (st : RState), ((forwardAll recur w sids st).2).stack = st.stack := by
  intro sids
  induction sids with
  | nil => intro st; rfl
  | cons sid rest ih =>
    intro st
    simp only [forwardAll]
    split
    next i st1 heq =>
      have hf := forwardInstanceWith_stack recur h w sid st
      rw [heq] at hf
      split
      next is st2 heq2 =>
        have hr := ih st1
        rw [heq2] at hr
        exact hr.trans hf
      next e st2 heq2 =>
        have hr := ih st1
        rw [heq2] at hr
        exact hr.trans hf
    next e st1 heq =>
      have hf := forwardInstanceWith_stack recur h w sid st
      rw [heq] at hf
      exact hf

/-- Concatenation behaviour of the vector-resolution loop: resolving the
concatenation of two retriever lists resolves the first list, then the
second from the resulting state, and concatenates the instances. -/
theorem forwardAll_append (recur : Recur) (w : World) :
    ∀ (sids1 : List Nat) (sids2 : List Nat) (st st1 st2 : RState)
      (is1 is2 : List Inst),
      forwardAll recur w sids1 st = (Except.ok is1, st1) →
      forwardAll recur w sids2 st1 = (Except.ok is2, st2) →
      forwardAll recur w (sids1 ++ sids2) st = (Except.ok (is1 ++ is2), st2) := by
  intro sids1
  induction sids1 with
  | nil =>
    intro sids2 st st1 st2 is1 is2 h1 h2
    simp only [forwardAll, Prod.mk.injEq, Except.ok.injEq] at h1
    obtain ⟨rfl, rfl⟩ := h1
    simpa using h2
  | cons sid rest ih =>
    intro sids2 st st1 st2 is1 is2 h1 h2
    simp only [forwardAll] at h1 ⊢
    split at h1
    next i su1 heq =>
      split at h1
      next is su2 heq2 =>
        simp only [Prod.mk.injEq, Except.ok.injEq] at h1
        obtain ⟨rfl, rfl⟩ := h1
        have hih := ih sids2 su1 su2 st2 is is2 heq2 h2
        simp only [heq, List.append_eq] at hih ⊢
        rw [hih]
        rfl
      next e su2 heq2 => simp at h1
    next e su1 heq => simp at h1

/-! ### Claim theorems -/

/-- C1: for every resolution, immediately after an implementation identity
is pushed onto the resolution-context stack and before its factory is
invoked, the stack excluding its last entry is scanned for an entry equal
to the pushed identity; if one is found the resolution fails with
`CircularDependencyFound` naming that identity, independently of the
recursive resolver (so no factory runs and allocation and caches are
untouched).  Consequently the mixed-strategy 3-cycle `A -> B -> C -> A`
fails with `CircularDependencyFound` naming `A`, the identity whose second
occurrence was about to be constructed, before any recursive call. -/
theorem cycle_detected_on_second_occurrence :
    (∀ (ty : component_type) (s : List component_type),
       stackHasCycle (ty :: s) = s.any fun u => ctEq u ty) ∧
    (∀ (recur : Recur) (stor : InstanceStorage) (st : RState),
       stackHasCycle (storageIdentity stor :: st.stack) = true →
       createInstanceWith recur stor st =
         (Except.error (DIError.circularDependencyFound (storageIdentity stor)), st)) ∧
    (containerGetTop cycleWC.1 cycleWC.2 10 tA 0 []).1 =
       Except.error (DIError.circularDependencyFound ⟨tA, typeName tA⟩) := by
  refine ⟨fun ty s => rfl, ?_, by rfl⟩
  intro recur stor st hcyc
  simp only [createInstanceWith, popGuard, pushGuard, hcyc]
  rfl

theorem cycle_detected_on_second_occurrence_witness :
    createInstanceWith (fun _ st => (Except.error DIError.outOfFuel, st))
        ⟨tA, Factory.ctorAuto [], false, ""⟩ ⟨[⟨tA, "prior"⟩], 0, []⟩ =
      (Except.error (DIError.circularDependencyFound ⟨tA, "user1"⟩),
        ⟨[⟨tA, "prior"⟩], 0, []⟩) :=
  cycle_detected_on_second_occurrence.2.1 _ _ _ (by rfl)

/-- C2: a single-instance request is served by the first provider in the
concatenation of the local registrations (in bind order) with the parent
chain providers: the retriever search lists local entries before the
parent recursion and `get` forwards through the head of that list.  On the
concrete containers, the child binding "C" shadows the parent binding "P"
for `tI`, the child still resolves `tJ` bound only in the parent, and the
parent alone resolves `tI` to its own "P". -/
theorem single_get_first_provider_local_before_parent :
    (∀ (regs : List (TypeTag × List Nat)) (p : Container) (t : TypeTag),
       (Container.child regs p).findInstanceRetrievers t =
         lookupRegs regs t ++ p.findInstanceRetrievers t) ∧
    (∀ (w : World) (c : Container) (fuel : Nat) (t : TypeTag) (st : RState)
       (sid : Nat) (rest : List Nat),
       c.findInstanceRetrievers t = sid :: rest →
       containerGet w c (fuel + 1) t st =
         forwardInstanceWith (fun u su => containerGet w c fuel u su) w sid st) ∧
    (containerGetTop childWC.1 childWC.2 5 tI 0 []).1 = Except.ok ⟨3, "C"⟩ ∧
    (containerGetTop childWC.1 childWC.2 5 tJ 0 []).1 = Except.ok ⟨2, "PJ"⟩ ∧
    (containerGetTop parentWC.1 parentWC.2 5 tI 0 []).1 = Except.ok ⟨1, "P"⟩ := by
  refine ⟨fun regs p t => rfl, ?_, by rfl, by rfl, by rfl⟩
  intro w c fuel t st sid rest h
  simp only [containerGet, h]

theorem single_get_first_provider_local_before_parent_witness :
    containerGet childWC.1 childWC.2 1 tI ⟨[unspecifiedIdentity], 0, []⟩ =
      forwardInstanceWith (fun u su => containerGet childWC.1 childWC.2 0 u su)
        childWC.1 2 ⟨[unspecifiedIdentity], 0, []⟩ :=
  single_get_first_provider_local_before_parent.2.1 _ _ 0 _ _ 2 [0] (by rfl)

/-- C4: an identity with zero providers anywhere in the local registry and
its parent chain makes a single-instance request fail with
`ComponentNotFound` while a collection request returns the empty collection
and never fails; a provider missing for a transitive dependency surfaces
the same way, as the concrete `missingDepWC` resolution (where `tA`
requires the unbound `tB`) shows. -/
theorem missing_component_single_fails_collection_empty :
    (∀ (w : World) (c : Container) (fuel : Nat) (t : TypeTag) (st : RState),
       c.findInstanceRetrievers t = [] →
       containerGet w c (fuel + 1) t st =
         (Except.error (DIError.componentNotFound ⟨t, ""⟩), st)) ∧
    (∀ (w : World) (c : Container) (fuel : Nat) (t : TypeTag) (st : RState),
       c.findInstanceRetrievers t = [] →
       containerGetVector w c fuel t st = (Except.ok [], st)) ∧
    (containerGetTop missingDepWC.1 missingDepWC.2 5 tA 0 []).1 =
       Except.error (DIError.componentNotFound ⟨tB, ""⟩) ∧
    containerGetVectorTop emptyW emptyC 5 tI 0 [] = (Except.ok [], 0, []) := by
  refine ⟨?_, ?_, by rfl, by rfl⟩
  · intro w c fuel t st h
    simp only [containerGet, h]
  · intro w c fuel t st h
    simp only [containerGetVector, h, forwardAll]

theorem missing_component_single_fails_collection_empty_witness :
    containerGet emptyW emptyC 1 tI ⟨[unspecifiedIdentity], 0, []⟩ =
      (Except.error (DIError.componentNotFound ⟨tI, ""⟩), ⟨[unspecifiedIdentity], 0, []⟩) ∧
    containerGetVector emptyW emptyC 1 tI ⟨[⟨tI, ""⟩], 0, []⟩ =
      (Except.ok [], ⟨[⟨tI, ""⟩], 0, []⟩) :=
  ⟨missing_component_single_fails_collection_empty.1 emptyW emptyC 0 tI _ (by rfl),
   missing_component_single_fails_collection_empty.2.1 emptyW emptyC 1 tI _ (by rfl)⟩

/-- C8: for a resolution-context stack with at least two entries,
`getRequester` returns the entry one level up from the identity currently
under construction (the second-from-top entry, `componentStack_[size - 2]`)
and is a pure function of the stack; for a stack with fewer than two
entries it fails with `InvalidOperation`. -/
theorem requester_second_from_top :
    (∀ (top req : component_type) (rest : List component_type),
       getRequester (top :: req :: rest) = Except.ok req) ∧
    (∀ (stack : List component_type), stack.length < 2 →
       getRequester stack =
         Except.error (DIError.invalidOperation "Context not valid.")) := by
  refine ⟨fun top req rest => rfl, ?_⟩
  intro stack h
  match stack with
  | [] => rfl
  | [a] => rfl
  | a :: b :: r =>
    exfalso
    simp only [List.length_cons] at h
    omega

theorem requester_second_from_top_witness :
    getRequester [unspecifiedIdentity] =
      Except.error (DIError.invalidOperation "Context not valid.") :=
  requester_second_from_top.2 [unspecifiedIdentity] (by decide)

/-- C3 counterexample: `constWC` binds `tI` through `toConstant`, so its
storage is not singleton-scoped (the constant-factory
`StorageConfiguration` specialization has no `inSingletonScope`); yet two
consecutive top-level resolutions, the second starting from the persistent
state left by the first, return one and the same instance — refuting the
claim that for every identity bound without singleton scope two
consecutive resolutions yield distinct instances. -/
theorem transient_const_not_fresh :
    constWC.1.storages.get? 0 =
      some ⟨tImpl, Factory.const ⟨100, "K"⟩, false, ""⟩ ∧
    (containerGetTop constWC.1 constWC.2 5 tI 0 []).1 = Except.ok ⟨100, "K"⟩ ∧
    (containerGetTop constWC.1 constWC.2 5 tI
        (containerGetTop constWC.1 constWC.2 5 tI 0 []).2.1
        (containerGetTop constWC.1 constWC.2 5 tI 0 []).2.2).1 =
      Except.ok ⟨100, "K"⟩ :=
  ⟨rfl, rfl, rfl⟩

/-- C3 (amended): every non-singleton binding invokes the factory on every
`getInstance` call (`storageGetInstanceWith` always defers to
`createInstanceWith`); for instance-creating factories
(automatic-constructor and function factories) consecutive resolutions
return distinct fresh instances, as the two threaded resolutions of the
transient `transientWC` show, while a constant-factory binding returns its
pre-built instance each call; for a singleton binding, once the cache is
populated every later call returns exactly the cached instance with the
holder state unchanged — the cached instance is never recreated or
replaced — and the first resolution of `singletonWC` populates the cache
that the second resolution then returns unchanged. -/
theorem lifetime_transient_fresh_singleton_cached :
    (∀ (recur : Recur) (sid : Nat) (stor : InstanceStorage) (st : RState),
       stor.isSingleton = false →
       storageGetInstanceWith recur sid stor st = createInstanceWith recur stor st) ∧
    ((containerGetTop transientWC.1 transientWC.2 5 tI 0 []).1 = Except.ok ⟨0, ""⟩ ∧
     (containerGetTop transientWC.1 transientWC.2 5 tI
        (containerGetTop transientWC.1 transientWC.2 5 tI 0 []).2.1
        (containerGetTop transientWC.1 transientWC.2 5 tI 0 []).2.2).1 =
       Except.ok ⟨1, ""⟩ ∧
     (⟨0, ""⟩ : Inst) ≠ ⟨1, ""⟩) ∧
    (∀ (recur : Recur) (sid : Nat) (stor : InstanceStorage) (st : RState) (i : Inst),
       stor.isSingleton = true →
       lookupCache st.cache sid = some i →
       storageGetInstanceWith recur sid stor st = (Except.ok i, st)) ∧
    (containerGetTop singletonWC.1 singletonWC.2 5 tI 0 [] =
       (Except.ok ⟨0, ""⟩, 1, [(0, ⟨0, ""⟩)]) ∧
     containerGetTop singletonWC.1 singletonWC.2 5 tI 1 [(0, ⟨0, ""⟩)] =
       (Except.ok ⟨0, ""⟩, 1, [(0, ⟨0, ""⟩)])) := by
  refine ⟨?_, ⟨by rfl, by rfl, by decide⟩, ?_, ⟨by rfl, by rfl⟩⟩
  · intro recur sid stor st hns
    simp [storageGetInstanceWith, hns]
  · intro recur sid stor st i hs hc
    simp [storageGetInstanceWith, hs, hc]

theorem lifetime_transient_fresh_singleton_cached_witness :
    storageGetInstanceWith (fun _ st => (Except.error DIError.outOfFuel, st)) 0
        ⟨tImpl, Factory.const ⟨100, "K"⟩, false, ""⟩ ⟨[], 0, []⟩ =
      createInstanceWith (fun _ st => (Except.error DIError.outOfFuel, st))
        ⟨tImpl, Factory.const ⟨100, "K"⟩, false, ""⟩ ⟨[], 0, []⟩ ∧
    storageGetInstanceWith (fun _ st => (Except.error DIError.outOfFuel, st)) 0
        ⟨tImpl, Factory.ctorAuto [], true, ""⟩ ⟨[], 3, [(0, ⟨9, "X"⟩)]⟩ =
      (Except.ok ⟨9, "X"⟩, ⟨[], 3, [(0, ⟨9, "X"⟩)]⟩) :=
  ⟨lifetime_transient_fresh_singleton_cached.1 _ 0 _ _ rfl,
   lifetime_transient_fresh_singleton_cached.2.2.1 _ 0 _ _ ⟨9, "X"⟩ rfl rfl⟩

/-- C5: a collection request on a child registry returns exactly the
instances from the child retrievers for the identity (in bind order)
followed by those obtained by recursing into the parent chain: the
retriever search concatenates local entries before the parent recursion,
the vector loop maps a concatenated retriever list to the concatenation of
the mapped instances, and the concrete child-over-parent containers yield
["C1", "P1", "P2"] — the child entry first, then both parent entries in
bind order, none overridden or dropped. -/
theorem collection_additive_local_first :
    (∀ (regs : List (TypeTag × List Nat)) (p : Container) (t : TypeTag),
       (Container.child regs p).findInstanceRetrievers t =
         lookupRegs regs t ++ p.findInstanceRetrievers t) ∧
    (∀ (recur : Recur) (w : World) (sids1 sids2 : List Nat) (st st1 st2 : RState)
       (is1 is2 : List Inst),
       forwardAll recur w sids1 st = (Except.ok is1, st1) →
       forwardAll recur w sids2 st1 = (Except.ok is2, st2) →
       forwardAll recur w (sids1 ++ sids2) st = (Except.ok (is1 ++ is2), st2)) ∧
    (containerGetVectorTop collChildWC.1 collChildWC.2 5 tI 0 []).1 =
       Except.ok [⟨30, "C1"⟩, ⟨10, "P1"⟩, ⟨20, "P2"⟩] :=
  ⟨fun regs p t => rfl,
   fun recur w sids1 sids2 st st1 st2 is1 is2 =>
     forwardAll_append recur w sids1 sids2 st st1 st2 is1 is2,
   by rfl⟩

theorem collection_additive_local_first_witness :
    forwardAll (fun u su => containerGet collChildWC.1 collChildWC.2 0 u su)
        collChildWC.1 ([2] ++ [0]) ⟨[⟨tI, ""⟩], 0, []⟩ =
      (Except.ok ([⟨30, "C1"⟩] ++ [⟨10, "P1"⟩]), ⟨[⟨tI, ""⟩], 0, []⟩) :=
  collection_additive_local_first.2.1 _ collChildWC.1 [2] [0]
    ⟨[⟨tI, ""⟩], 0, []⟩ ⟨[⟨tI, ""⟩], 0, []⟩ ⟨[⟨tI, ""⟩], 0, []⟩
    [⟨30, "C1"⟩] [⟨10, "P1"⟩] (by rfl) (by rfl)

/-- C6: one bind call listing several identities with singleton scope
creates exactly one lifetime holder (`bindTo` always appends exactly one
storage), registers one provider per identity all referencing that single
storage (storage id 0 under each of `tI1`, `tI2`, `tI3`), and resolving
any of the identities after the first resolution returns the same
underlying instance while the factory runs exactly once: the allocation
counter stays at 1 across all three resolutions. -/
theorem multi_bind_shares_single_storage :
    (∀ (w : World) (c : Container) (idents : List TypeTag) (impl : TypeTag)
       (f : Factory) (s : Bool) (n : String),
       ((bindTo w c idents impl f s n).1).storages.length = w.storages.length + 1) ∧
    multiWC.2 = Container.root [(tI1, [0]), (tI2, [0]), (tI3, [0])] ∧
    multiWC.1.storages = [⟨tImpl, Factory.ctorAuto [], true, ""⟩] ∧
    containerGetTop multiWC.1 multiWC.2 5 tI1 0 [] =
      (Except.ok ⟨0, ""⟩, 1, [(0, ⟨0, ""⟩)]) ∧
    containerGetTop multiWC.1 multiWC.2 5 tI2 1 [(0, ⟨0, ""⟩)] =
      (Except.ok ⟨0, ""⟩, 1, [(0, ⟨0, ""⟩)]) ∧
    containerGetTop multiWC.1 multiWC.2 5 tI3 1 [(0, ⟨0, ""⟩)] =
      (Except.ok ⟨0, ""⟩, 1, [(0, ⟨0, ""⟩)]) := by
  refine ⟨?_, by rfl, by rfl, by rfl, by rfl, by rfl⟩
  intro w c idents impl f s n
  simp [bindTo]

/-- C7: every instance-creation step pushes the implementation identity
(type plus resolved alias name) before invoking the factory and pops it on
every exit path: any resolution — through `Container::get` or through a
retriever whose creation may fail with a cycle error, a missing component
or a factory error — leaves the resolution-context stack exactly as it
found it; and while the factory runs the identity is on top of the stack,
as a requester-reading function factory observes the previous stack top as
its requester. -/
theorem context_stack_balanced :
    (∀ (w : World) (c : Container) (fuel : Nat) (t : TypeTag) (st : RState),
       ((containerGet w c fuel t st).2).stack = st.stack) ∧
    (∀ (w : World) (c : Container) (fuel : Nat) (sid : Nat) (st : RState),
       ((forwardInstanceWith (fun u su => containerGet w c fuel u su) w sid st).2).stack
         = st.stack) ∧
    (∀ (recur : Recur) (stor : InstanceStorage) (st : RState) (req : component_type)
       (rest : List component_type),
       stor.factory = Factory.funcRequester →
       st.stack = req :: rest →
       stackHasCycle (storageIdentity stor :: st.stack) = false →
       createInstanceWith recur stor st =
         (Except.ok ⟨st.nextId, req.name⟩, { st with nextId := st.nextId + 1 })) := by
  refine ⟨fun w c fuel t st => containerGet_stack w c fuel t st, ?_, ?_⟩
  · intro w c fuel sid st
    exact forwardInstanceWith_stack _ (fun u su => containerGet_stack w c fuel u su) w sid st
  · intro recur stor st req rest hf hs hnc
    rw [hs] at hnc
    simp only [createInstanceWith, popGuard, pushGuard, hf, invokeFactoryWith, hs,
      getRequester, allocInst, hnc, Bool.false_eq_true, if_false, List.tail_cons]

theorem context_stack_balanced_witness :
    createInstanceWith (fun _ st => (Except.error DIError.outOfFuel, st))
        ⟨tImpl, Factory.funcRequester, false, ""⟩ ⟨[unspecifiedIdentity], 0, []⟩ =
      (Except.ok ⟨0, "Unspecified"⟩, ⟨[unspecifiedIdentity], 1, []⟩) :=
  context_stack_balanced.2.2 _ _ _ unspecifiedIdentity [] rfl rfl (by rfl)

/-- C9 counterexample: `ctorsBoth` describes an implementation type with no
explicit constructor-parameter declaration whose constructors are a
zero-parameter one and a one-parameter one taking a non-pointer type.  The
type is constructible from the proxy resolvers at arity 1 — which is what
the descending probe itself accepts first when started at ten — but the
`ConstructorFactory` dispatch constructs it at arity 0 through the trivial
specialization because the type is default-constructible, so the factory
does not accept the first constructible arity counting down from ten. -/
theorem ctor_probe_counterexample :
    hasDefaultCtor ctorsBoth = true ∧
    constructorFactoryArity tImpl ctorsBoth = some 0 ∧
    tryInstantiateArity tImpl ctorsBoth 10 = some 1 ∧
    constructibleAt tImpl ctorsBoth 1 = true :=
  ⟨rfl, rfl, rfl, rfl⟩

/-- C9 (amended): for every implementation type with no explicit
constructor-parameter declaration that is not default-constructible, the
automatic constructor factory probes constructibility from the highest
supported arity (ten) downward and constructs at the first arity at which
the type is constructible from the proxy argument resolvers (every higher
arity up to ten being non-constructible); a default-constructible type is
instead built by the trivial zero-argument specialization.  The proxy
resolvers convert only to non-pointer types, so a constructor signature
containing a raw-pointer parameter is never constructible from them. -/
theorem ctor_probe_highest_first_no_pointers :
    (∀ (impl : TypeTag) (ctors : List (List ParamKind)),
       hasDefaultCtor ctors = false →
       constructorFactoryArity impl ctors = tryInstantiateArity impl ctors 10) ∧
    (∀ (impl : TypeTag) (ctors : List (List ParamKind)) (n k : Nat),
       tryInstantiateArity impl ctors n = some k →
       1 ≤ k ∧ k ≤ n ∧ constructibleAt impl ctors k = true ∧
       ∀ j, k < j → j ≤ n → constructibleAt impl ctors j = false) ∧
    (∀ (impl : TypeTag) (t : TypeTag) (sig : List ParamKind),
       ParamKind.rawPointer t ∈ sig → sigAcceptsProxies impl sig = false) := by
  refine ⟨?_, ?_, ?_⟩
  · intro impl ctors h
    simp [constructorFactoryArity, h]
  · intro impl ctors n
    induction n with
    | zero => intro k h; cases h
    | succ n ih =>
      intro k h
      simp only [tryInstantiateArity] at h
      split at h
      next hc =>
        obtain rfl : n + 1 = k := Option.some.inj h
        refine ⟨by omega, by omega, hc, ?_⟩
        intro j hj1 hj2
        omega
      next hc =>
        obtain ⟨hk1, hk2, hk3, hk4⟩ := ih k h
        refine ⟨hk1, by omega, hk3, ?_⟩
        intro j hj1 hj2
        rcases Nat.lt_or_ge j (n + 1) with hlt | hge
        · exact hk4 j hj1 (by omega)
        · have : j = n + 1 := by omega
          subst this
          exact eq_false_of_ne_true hc
  · intro impl t sig
    induction sig with
    | nil => intro h; cases h
    | cons p rest ih =>
      intro h
      cases rest with
      | nil =>
        have hp : p = ParamKind.rawPointer t := by
          cases h with
          | head => rfl
          | tail _ h2 => cases h2
        subst hp
        rfl
      | cons q rest2 =>
        cases h with
        | head => simp [sigAcceptsProxies, plainResolverConverts]
        | tail _ h2 =>
          have hrest := ih h2
          simp [sigAcceptsProxies, hrest]

theorem ctor_probe_highest_first_no_pointers_witness :
    constructorFactoryArity tImpl [[ParamKind.byValue tA]] =
      tryInstantiateArity tImpl [[ParamKind.byValue tA]] 10 ∧
    constructibleAt tImpl [[ParamKind.byValue tA]] 1 = true ∧
    sigAcceptsProxies tImpl [ParamKind.rawPointer tB] = false :=
  ⟨ctor_probe_highest_first_no_pointers.1 tImpl [[ParamKind.byValue tA]] rfl,
   (ctor_probe_highest_first_no_pointers.2.1 tImpl [[ParamKind.byValue tA]] 10 1 rfl).2.2.1,
   ctor_probe_highest_first_no_pointers.2.2 tImpl tB [ParamKind.rawPointer tB]
     (List.mem_singleton.mpr rfl)⟩

/-- C10: a top-level single-instance `get` without a caller-supplied
context seeds the lazily created context stack with the sentinel
`Unspecified` identity, whose type tag is the unspecified-component marker
and whose `specified()` is false; a factory executing during such a
top-level resolution sees `getRequester` return that sentinel (its own
identity sits on top, the sentinel directly below), not an
`InvalidOperation` failure — as the concrete requester-reading factory of
`reqWC` observes, producing an instance tagged with the sentinel name
"Unspecified". -/
theorem top_level_context_sentinel :
    unspecifiedIdentity.typeInfo = TypeTag.unspecified ∧
    unspecifiedIdentity.specified = false ∧
    component_type.name unspecifiedIdentity = "Unspecified" ∧
    (∀ (ty : component_type),
       getRequester [ty, unspecifiedIdentity] = Except.ok unspecifiedIdentity) ∧
    containerGetTop reqWC.1 reqWC.2 5 tI 0 [] =
      (Except.ok ⟨0, "Unspecified"⟩, 1, []) :=
  ⟨rfl, rfl, rfl, fun _ => rfl, rfl⟩

end Cinject
